import Mathlib

/-!
Verification of the geometric pipeline of ComfyUI-Trimesh-Coaster
(src/trimesh_node.py, class TrimeshCoasterNode).

Shallow embedding conventions:
- machine floats are modelled by the real numbers;
- a mesh is modelled by its list of vertices (the transforms of the node act
  vertex-wise, and every verified property is a property of the vertices);
- the external collaborators (trimesh.load_path, shapely buffer(0),
  trimesh.creation.extrude_polygon, os.path.exists, folder_paths, time.strftime)
  are oracle fields of an `Env` record: the node only branches on their
  results, never on their internals;
- the 4x4 homogeneous matrices built in the source are embedded as the affine
  point maps they encode (diagonal scale matrix, rotation_matrix about an axis
  through the origin, translation).
-/

noncomputable section

/-- A 3D vertex (x, y, z), modelling one row of a trimesh vertex array. -/
abbrev Point : Type := ℝ × ℝ × ℝ

/-- A mesh, modelled by its vertex list (transforms act vertex-wise). -/
abbrev Mesh : Type := List Point

/-- A 2D polygon as handed around between the path provider, buffer(0) and
extrude_polygon; its internals are never inspected by the node, only passed
to the oracles, so the ring representation is irrelevant to the claims. -/
abbrev Polygon : Type := List (ℝ × ℝ)

/-- Result of trimesh.load_path: a Path2D object carrying the attributes
polygons_full and polygons_closed read at line 67 of the source. -/
structure PathObj where
  polygons_full : List Polygon
  polygons_closed : List Polygon

/-- The external collaborators of generate, as oracles. -/
structure Env where
  /-- os.path.exists -/
  pathExists : String → Bool
  /-- trimesh.load_path on an in-memory SVG string; none models a raised
  exception (caught at line 63 of the source). -/
  loadString : String → Option PathObj
  /-- trimesh.load_path on a file path; none models a raised exception. -/
  loadFile : String → Option PathObj
  /-- shapely buffer(0) on a polygon (line 74). -/
  buffer0 : Polygon → Polygon
  /-- the is_empty test on a shapely geometry (line 75). -/
  polyIsEmpty : Polygon → Bool
  /-- trimesh.creation.extrude_polygon(poly, height); none models a raised
  exception (swallowed by the bare except at line 79). -/
  extrude : Polygon → ℝ → Option Mesh
  /-- folder_paths.get_output_directory() -/
  outputDir : String
  /-- time.strftime of HHMMSS (line 133). -/
  timestamp : String

/-- Python str.strip(): drop leading and trailing whitespace.  Defined over
the character list so that it evaluates by kernel reduction. -/
def pyStrip (s : String) : String :=
  String.mk (((s.data.dropWhile Char.isWhitespace).reverse.dropWhile
      Char.isWhitespace).reverse)

/-- The possible return values of generate.  Each error constructor is one of
the early return statements of the source (lines 62, 64, 69, 82); success is
the final return at line 144 carrying the two written paths.  The source has
no other return: in particular there is no degenerate-size error return. -/
inductive Outcome where
  | errNoSource : Outcome
  | errParse : Outcome
  | errNoShapes : Outcome
  | errExtrusion : Outcome
  | success (body_path logo_path : String) : Outcome
deriving DecidableEq

/-- True on the four error returns of generate, false on success. -/
def Outcome.isFailure : Outcome → Bool
  | .success _ _ => false
  | _ => true

/-- The returned value of generate together with the files written by the
export calls at lines 140 and 141 (name and exported mesh). -/
structure GenOut where
  outcome : Outcome
  files : List (String × Mesh)

/-- Source selection, lines 52 to 64: the inline string wins when it is
truthy and its stripped length exceeds 10; otherwise a nonempty and existing
file path is used; otherwise the no-source error.  The outer none is the
no-source return; an inner none is a parse exception (parse-error return). -/
def selectSource (env : Env) (svg_path svg_string : String) :
    Option (Option PathObj) :=
  if svg_string ≠ "" ∧ 10 < (pyStrip svg_string).length then
    some (env.loadString svg_string)
  else if svg_path ≠ "" ∧ env.pathExists svg_path = true then
    some (env.loadFile svg_path)
  else
    none

/-- Line 67: polygons_full if it is nonempty, else polygons_closed. -/
def polyList (p : PathObj) : List Polygon :=
  if p.polygons_full.isEmpty then p.polygons_closed else p.polygons_full

/-- The extrusion loop, lines 72 to 79: buffer(0) each polygon, drop it when
the result is empty, extrude it, append on success, skip it when the
extrusion raises. -/
def extrudeLoop (env : Env) (logo_depth : ℝ) : List Polygon → List Mesh
  | [] => []
  | poly :: rest =>
    let clean_poly := env.buffer0 poly
    if env.polyIsEmpty clean_poly then extrudeLoop env logo_depth rest
    else
      match env.extrude clean_poly logo_depth with
      | some m => m :: extrudeLoop env logo_depth rest
      | none => extrudeLoop env logo_depth rest

/-- Minimum of a list of reals, first element as seed (np.min on a nonempty
axis of a vertex array); 0 on the empty list, a case the source never reads. -/
def listMin : List ℝ → ℝ
  | [] => 0
  | a :: rest => rest.foldr min a

/-- Maximum of a list of reals, first element as seed (np.max). -/
def listMax : List ℝ → ℝ
  | [] => 0
  | a :: rest => rest.foldr max a

/-- The x coordinates of a mesh. -/
def xs (m : Mesh) : List ℝ := m.map fun p => p.1

/-- The y coordinates of a mesh. -/
def ys (m : Mesh) : List ℝ := m.map fun p => p.2.1

/-- The z coordinates of a mesh. -/
def zs (m : Mesh) : List ℝ := m.map fun p => p.2.2

/-- bounds[1][0] - bounds[0][0] at line 88: the x extent of the bounding box. -/
def xExtent (m : Mesh) : ℝ := listMax (xs m) - listMin (xs m)

/-- bounds[1][1] - bounds[0][1] at line 88: the y extent of the bounding box. -/
def yExtent (m : Mesh) : ℝ := listMax (ys m) - listMin (ys m)

/-- current_size at line 88: the larger of the two XY extents. -/
def currentSize (m : Mesh) : ℝ := max (xExtent m) (yExtent m)

/-- (new_bounds[0][0] + new_bounds[1][0]) / 2 at line 100. -/
def centerX (m : Mesh) : ℝ := (listMin (xs m) + listMax (xs m)) / 2

/-- (new_bounds[0][1] + new_bounds[1][1]) / 2 at line 101. -/
def centerY (m : Mesh) : ℝ := (listMin (ys m) + listMax (ys m)) / 2

/-- Lines 87 to 96: the diagonal scale matrix with entries
matrix[0,0] = mirror_x * target_size / current_size and
matrix[1,1] = target_size / current_size, applied to the mesh, where
mirror_x is -1 when flip_horizontal else 1 and target_size is passed in
(diameter * scale at line 89).  current_size is recomputed from the mesh as
in the source. -/
def normalizer (flip_horizontal : Bool) (target_size : ℝ) (m : Mesh) : Mesh :=
  m.map fun p =>
    ((if flip_horizontal then (-1 : ℝ) else 1) * (target_size / currentSize m) * p.1,
     (target_size / currentSize m) * p.2.1,
     p.2.2)

/-- Lines 98 to 106: translate by (-center_x, -center_y, 0), the bounding
box center moving to the origin; z untouched. -/
def centerer (m : Mesh) : Mesh :=
  m.map fun p => (p.1 - centerX m, p.2.1 - centerY m, p.2.2)

/-- np.radians: degrees to radians. -/
def radians (deg : ℝ) : ℝ := deg * Real.pi / 180

/-- trimesh.transformations.rotation_matrix(theta, [0,0,1]) applied to a
point: rotation about the Z axis through the origin. -/
def rotZ (theta : ℝ) (p : Point) : Point :=
  (Real.cos theta * p.1 - Real.sin theta * p.2.1,
   Real.sin theta * p.1 + Real.cos theta * p.2.1,
   p.2.2)

/-- trimesh.transformations.rotation_matrix(theta, [1,0,0]) applied to a
point: rotation about the X axis through the origin. -/
def rotX (theta : ℝ) (p : Point) : Point :=
  (p.1,
   Real.cos theta * p.2.1 - Real.sin theta * p.2.2,
   Real.sin theta * p.2.1 + Real.cos theta * p.2.2)

/-- apply_translation([0, 0, t]). -/
def translateZ (t : ℝ) (p : Point) : Point := (p.1, p.2.1, p.2.2 + t)

/-- Lines 110 to 117: copy the centered logo, rotate about Z by
np.radians(top_rotate) only when top_rotate is nonzero, then translate along
Z by top_z = thickness / 2 - logo_depth.  top_rotate is an integer: the
declared input type of the socket is INT. -/
def topInstance (thickness logo_depth : ℝ) (top_rotate : ℤ) (m : Mesh) : Mesh :=
  let m1 := if top_rotate ≠ 0 then m.map (rotZ (radians top_rotate)) else m
  m1.map (translateZ (thickness / 2 - logo_depth))

/-- Lines 119 to 129: copy the centered logo, rotate about Z by
np.radians(bottom_rotate) only when bottom_rotate is nonzero, rotate by
np.pi about the X axis, then translate along Z by
bot_z = -thickness / 2 + logo_depth. -/
def botInstance (thickness logo_depth : ℝ) (bottom_rotate : ℤ) (m : Mesh) : Mesh :=
  let m1 := if bottom_rotate ≠ 0 then m.map (rotZ (radians bottom_rotate)) else m
  let m2 := m1.map (rotX Real.pi)
  m2.map (translateZ (-thickness / 2 + logo_depth))

/-- Vertex k of the bottom (top = false) or top (top = true) ring of an
n-gon approximation of a circle of radius r, at height plus or minus h/2. -/
def ringV (r h : ℝ) (n : ℕ) (top : Bool) (k : ℕ) : Point :=
  (r * Real.cos (2 * Real.pi * k / n),
   r * Real.sin (2 * Real.pi * k / n),
   if top then h / 2 else -(h / 2))

/-- Modelled from the spec: trimesh.creation.cylinder(radius, height,
sections) is an external library call (BaseBuilder in the spec, section 4.7):
a right circular cylinder approximated by sections segments, centered at the
origin, spanning z from -height/2 to height/2.  Its vertex set is the two
n-gon rings. -/
def cylinderVerts (r h : ℝ) (n : ℕ) : Mesh :=
  ((List.range n).map (ringV r h n false)) ++ ((List.range n).map (ringV r h n true))

/-- Modelled from the spec: the fan triangulation capping one ring of the
cylinder (capped top and bottom, spec section 4.7), as vertex triples. -/
def capFaces (r h : ℝ) (n : ℕ) (top : Bool) : List (Point × Point × Point) :=
  (List.range (n - 2)).map fun i =>
    (ringV r h n top 0, ringV r h n top (i + 1), ringV r h n top (i + 2))

/-- Line 49: base = trimesh.creation.cylinder(radius=diameter/2,
height=thickness, sections=120). -/
def baseMesh (diameter thickness : ℝ) : Mesh :=
  cylinderVerts (diameter / 2) thickness 120

/-- One declared input socket of the node: name, ComfyUI type tag, and the
numeric default/min/max/step attributes when present (booleans as 1/0). -/
structure InputField where
  fname : String
  ftype : String
  fdefault : Option ℚ
  fmin : Option ℚ
  fmax : Option ℚ
  fstep : Option ℚ
deriving DecidableEq

/-- The INPUT_TYPES classmethod, lines 20 to 36: the required and the
optional socket lists.  String defaults carry no numeric attribute; the
BOOLEAN default True is recorded as 1. -/
def INPUT_TYPES : List InputField × List InputField :=
  ([⟨"output_name", "STRING", none, none, none, none⟩,
    ⟨"diameter", "FLOAT", some 100, some 50, some 200, none⟩,
    ⟨"thickness", "FLOAT", some 5, some 2, some 20, none⟩,
    ⟨"logo_depth", "FLOAT", some (3/5), some (1/5), some 5, none⟩,
    ⟨"scale", "FLOAT", some (17/20), some (1/10), some 1, none⟩,
    ⟨"flip_horizontal", "BOOLEAN", some 1, none, none, none⟩,
    ⟨"top_rotate", "INT", some 0, some (-360), some 360, some 90⟩,
    ⟨"bottom_rotate", "INT", some 0, some (-360), some 360, some 90⟩],
   [⟨"svg_path", "STRING", none, none, none, none⟩,
    ⟨"svg_string", "STRING", none, none, none, none⟩])

/-- The declared ComfyUI type tag of a named input socket. -/
def inputTypeOf (n : String) : Option String :=
  ((INPUT_TYPES.1 ++ INPUT_TYPES.2).find? fun f => f.fname == n).map fun f => f.ftype

/-- The generate method, lines 44 to 144, stage by stage: base cylinder,
source selection, polygon list, extrusion loop, concatenation, scale and
mirror, centering, the two face instances, export.  Every early error return
carries an empty file list; only the final success branch exports the two
files (base.export at line 140, the concatenated instances at line 141). -/
def generate (env : Env) (output_name : String)
    (diameter thickness logo_depth scale : ℝ) (flip_horizontal : Bool)
    (top_rotate bottom_rotate : ℤ) (svg_path svg_string : String) : GenOut :=
  let base := baseMesh diameter thickness
  match selectSource env svg_path svg_string with
  | none => ⟨.errNoSource, []⟩
  | some none => ⟨.errParse, []⟩
  | some (some path_obj) =>
    let poly_list := polyList path_obj
    if poly_list.isEmpty then ⟨.errNoShapes, []⟩
    else
      let logo_meshes := extrudeLoop env logo_depth poly_list
      if logo_meshes.isEmpty then ⟨.errExtrusion, []⟩
      else
        let full_logo := logo_meshes.flatten
        let scaled := normalizer flip_horizontal (diameter * scale) full_logo
        let centered := centerer scaled
        let top := topInstance thickness logo_depth top_rotate centered
        let bot := botInstance thickness logo_depth bottom_rotate centered
        let unique_name := output_name ++ "_" ++ env.timestamp
        let body_path := env.outputDir ++ "/" ++ unique_name ++ "_Body.stl"
        let logo_path := env.outputDir ++ "/" ++ unique_name ++ "_Logos.stl"
        ⟨.success body_path logo_path, [(body_path, base), (logo_path, top ++ bot)]⟩

/-! Helper lemmas about listMin and listMax under the vertex-wise maps the
pipeline applies: scaling by a factor, negation, and translation. -/

lemma minMulLeft {c : ℝ} (x y : ℝ) (hc : 0 ≤ c) :
    min (c * x) (c * y) = c * min x y := by
  rcases le_total x y with h | h
  · rw [min_eq_left h, min_eq_left (mul_le_mul_of_nonneg_left h hc)]
  · rw [min_eq_right h, min_eq_right (mul_le_mul_of_nonneg_left h hc)]

lemma maxMulLeft {c : ℝ} (x y : ℝ) (hc : 0 ≤ c) :
    max (c * x) (c * y) = c * max x y := by
  rcases le_total x y with h | h
  · rw [max_eq_right h, max_eq_right (mul_le_mul_of_nonneg_left h hc)]
  · rw [max_eq_left h, max_eq_left (mul_le_mul_of_nonneg_left h hc)]

lemma minSubRight (x y b : ℝ) : min (x - b) (y - b) = min x y - b := by
  rcases le_total x y with h | h
  · rw [min_eq_left h, min_eq_left (by linarith)]
  · rw [min_eq_right h, min_eq_right (by linarith)]

lemma maxSubRight (x y b : ℝ) : max (x - b) (y - b) = max x y - b := by
  rcases le_total x y with h | h
  · rw [max_eq_right h, max_eq_right (by linarith)]
  · rw [max_eq_left h, max_eq_left (by linarith)]

lemma foldrMin_map_mul {c : ℝ} (hc : 0 ≤ c) (l : List ℝ) (a : ℝ) :
    (l.map fun x => c * x).foldr min (c * a) = c * l.foldr min a := by
  induction l with
  | nil => rfl
  | cons x rest ih => simp only [List.map_cons, List.foldr_cons, ih, minMulLeft _ _ hc]

lemma foldrMax_map_mul {c : ℝ} (hc : 0 ≤ c) (l : List ℝ) (a : ℝ) :
    (l.map fun x => c * x).foldr max (c * a) = c * l.foldr max a := by
  induction l with
  | nil => rfl
  | cons x rest ih => simp only [List.map_cons, List.foldr_cons, ih, maxMulLeft _ _ hc]

lemma foldrMin_map_neg (l : List ℝ) (a : ℝ) :
    (l.map fun x => -x).foldr min (-a) = -(l.foldr max a) := by
  induction l with
  | nil => rfl
  | cons x rest ih => simp only [List.map_cons, List.foldr_cons, ih, min_neg_neg]

lemma foldrMax_map_neg (l : List ℝ) (a : ℝ) :
    (l.map fun x => -x).foldr max (-a) = -(l.foldr min a) := by
  induction l with
  | nil => rfl
  | cons x rest ih => simp only [List.map_cons, List.foldr_cons, ih, max_neg_neg]

lemma foldrMin_map_sub (l : List ℝ) (a b : ℝ) :
    (l.map fun x => x - b).foldr min (a - b) = l.foldr min a - b := by
  induction l with
  | nil => rfl
  | cons x rest ih => simp only [List.map_cons, List.foldr_cons, ih, minSubRight]

lemma foldrMax_map_sub (l : List ℝ) (a b : ℝ) :
    (l.map fun x => x - b).foldr max (a - b) = l.foldr max a - b := by
  induction l with
  | nil => rfl
  | cons x rest ih => simp only [List.map_cons, List.foldr_cons, ih, maxSubRight]

lemma listMin_cons_map_mul {c : ℝ} (hc : 0 ≤ c) (a : ℝ) (l : List ℝ) :
    listMin ((a :: l).map fun x => c * x) = c * listMin (a :: l) := by
  simpa [listMin] using foldrMin_map_mul hc l a

lemma listMax_cons_map_mul {c : ℝ} (hc : 0 ≤ c) (a : ℝ) (l : List ℝ) :
    listMax ((a :: l).map fun x => c * x) = c * listMax (a :: l) := by
  simpa [listMax] using foldrMax_map_mul hc l a

lemma listMin_cons_map_neg (a : ℝ) (l : List ℝ) :
    listMin ((a :: l).map fun x => -x) = -listMax (a :: l) := by
  simpa [listMin, listMax] using foldrMin_map_neg l a

lemma listMax_cons_map_neg (a : ℝ) (l : List ℝ) :
    listMax ((a :: l).map fun x => -x) = -listMin (a :: l) := by
  simpa [listMin, listMax] using foldrMax_map_neg l a

lemma listMin_cons_map_sub (a b : ℝ) (l : List ℝ) :
    listMin ((a :: l).map fun x => x - b) = listMin (a :: l) - b := by
  simpa [listMin] using foldrMin_map_sub l a b

lemma listMax_cons_map_sub (a b : ℝ) (l : List ℝ) :
    listMax ((a :: l).map fun x => x - b) = listMax (a :: l) - b := by
  simpa [listMax] using foldrMax_map_sub l a b

/-! Helper lemmas relating the coordinate lists of a transformed mesh to the
coordinate lists of the source mesh. -/

lemma xs_map (m : Mesh) (f : Point → Point) :
    xs (m.map f) = m.map fun p => (f p).1 := by
  simp [xs, List.map_map]

lemma ys_map (m : Mesh) (f : Point → Point) :
    ys (m.map f) = m.map fun p => (f p).2.1 := by
  simp [ys, List.map_map]

lemma zs_map (m : Mesh) (f : Point → Point) :
    zs (m.map f) = m.map fun p => (f p).2.2 := by
  simp [zs, List.map_map]

lemma xs_normalizer (flip : Bool) (t : ℝ) (m : Mesh) :
    xs (normalizer flip t m) =
      (xs m).map fun x => (if flip then (-1 : ℝ) else 1) * (t / currentSize m) * x := by
  simp [normalizer, xs, List.map_map]

lemma ys_normalizer (flip : Bool) (t : ℝ) (m : Mesh) :
    ys (normalizer flip t m) = (ys m).map fun y => (t / currentSize m) * y := by
  simp [normalizer, ys, List.map_map]

lemma zs_normalizer (flip : Bool) (t : ℝ) (m : Mesh) :
    zs (normalizer flip t m) = zs m := by
  simp [normalizer, zs, List.map_map]

lemma xs_centerer (m : Mesh) :
    xs (centerer m) = (xs m).map fun x => x - centerX m := by
  simp [centerer, xs, List.map_map]

lemma ys_centerer (m : Mesh) :
    ys (centerer m) = (ys m).map fun y => y - centerY m := by
  simp [centerer, ys, List.map_map]

lemma zs_centerer (m : Mesh) : zs (centerer m) = zs m := by
  simp [centerer, zs, List.map_map]

/-! Helper lemmas about the face instancing transforms. -/

lemma rotZ_zero (p : Point) : rotZ 0 p = p := by
  simp [rotZ]

lemma radians_intCast_zero : radians ((0 : ℤ) : ℝ) = 0 := by
  simp [radians]

/-- The conditional rotation at lines 112 to 114 is the unconditional
rotation: skipping the transform when top_rotate is 0 equals rotating by
0 radians. -/
lemma topInstance_eq (thickness logo_depth : ℝ) (r : ℤ) (m : Mesh) :
    topInstance thickness logo_depth r m =
      m.map fun p => translateZ (thickness / 2 - logo_depth) (rotZ (radians r) p) := by
  unfold topInstance
  by_cases h : r = 0
  · subst h
    simp only [ne_eq, not_true_eq_false, if_false, reduceIte]
    refine List.map_congr_left fun p _ => ?_
    rw [show radians ((0 : ℤ) : ℝ) = 0 by simp [radians], rotZ_zero]
  · simp [h, List.map_map]

/-- The conditional rotation at lines 121 to 123 followed by the flip about
X and the downward translation, written as one unconditional map. -/
lemma botInstance_eq (thickness logo_depth : ℝ) (r : ℤ) (m : Mesh) :
    botInstance thickness logo_depth r m =
      m.map fun p =>
        translateZ (-thickness / 2 + logo_depth) (rotX Real.pi (rotZ (radians r) p)) := by
  unfold botInstance
  by_cases h : r = 0
  · subst h
    simp only [ne_eq, not_true_eq_false, if_false, reduceIte, List.map_map]
    refine List.map_congr_left fun p _ => ?_
    rw [show radians ((0 : ℤ) : ℝ) = 0 by simp [radians], rotZ_zero]
    rfl
  · simp only [ne_eq, h, not_false_eq_true, if_true, reduceIte, List.map_map]
    refine List.map_congr_left fun p _ => ?_
    simp [Function.comp]

lemma z_top (c θ : ℝ) (p : Point) :
    (translateZ c (rotZ θ p)).2.2 = p.2.2 + c := rfl

lemma z_bot (c θ : ℝ) (p : Point) :
    (translateZ c (rotX Real.pi (rotZ θ p))).2.2 = -p.2.2 + c := by
  simp [translateZ, rotX, rotZ, Real.cos_pi, Real.sin_pi]

/-! Concrete oracle environments used to evaluate the pipeline on explicit
inputs. -/

/-- A trivial oracle environment: no file exists, both load oracles raise,
the geometry oracles are inert. -/
def emptyEnv : Env :=
  ⟨fun _ => false, fun _ => none, fun _ => none, id, fun _ => false,
   fun _ _ => none, "out", "000000"⟩

/-- An environment whose extrusion oracle always yields the one-vertex mesh
at the origin. -/
def loopEnv : Env :=
  ⟨fun _ => false, fun _ => none, fun _ => none, id, fun _ => false,
   fun _ _ => some [((0 : ℝ), 0, 0)], "out", "000000"⟩

/-- An environment realizing spec failure scenario D: the parsed source
yields one polygon, and its extruded mesh is a vertical segment, so the
combined logo bounding box has zero XY extent. -/
def degenEnv : Env :=
  ⟨fun _ => false, fun _ => some ⟨[[]], []⟩, fun _ => none, id, fun _ => false,
   fun _ d => some [((0 : ℝ), 0, 0), (0, 0, d)], "out", "000000"⟩

/-- C10: an inline vector source counts as provided only when its
whitespace-stripped length exceeds 10 characters; with a stripped length of
10 or less the inline source is ignored and the file path is consulted,
yielding the no-source error when the path is empty or does not exist; with
a stripped length above 10 the inline string takes precedence and the
result depends only on the string-loading oracle, so the file is never
read. -/
theorem C10_inline_source_threshold (env : Env) (svg_path svg_string : String) :
    ((pyStrip svg_string).length ≤ 10 →
      selectSource env svg_path svg_string =
        (if svg_path ≠ "" ∧ env.pathExists svg_path = true then
          some (env.loadFile svg_path)
         else none)) ∧
    (10 < (pyStrip svg_string).length →
      selectSource env svg_path svg_string = some (env.loadString svg_string)) := by
  constructor
  · intro h
    have hc : ¬(svg_string ≠ "" ∧ 10 < (pyStrip svg_string).length) := by
      rintro ⟨-, h2⟩; omega
    unfold selectSource
    rw [if_neg hc]
  · intro h
    have hne : svg_string ≠ "" := by
      intro hs
      subst hs
      exact absurd h (by decide)
    unfold selectSource
    rw [if_pos ⟨hne, h⟩]

theorem C10_inline_source_threshold_witness :
    (pyStrip "1234567890").length ≤ 10 ∧
    selectSource emptyEnv "" "1234567890" = none :=
  ⟨by decide,
   ((C10_inline_source_threshold emptyEnv "" "1234567890").1 (by decide)).trans
     (by rfl)⟩

/-- C4: per-polygon failures are tolerated.  A polygon whose buffer(0)
result is empty is skipped; a polygon whose extrusion raises is skipped; a
polygon whose extrusion succeeds contributes its mesh in order; and once the
earlier stages have produced a nonempty polygon list, generate returns the
fatal extrusion error exactly when the set of surviving meshes is empty. -/
theorem C4_per_polygon_tolerance (env : Env) (logo_depth : ℝ) (poly : Polygon)
    (rest : List Polygon) :
    (env.polyIsEmpty (env.buffer0 poly) = true →
      extrudeLoop env logo_depth (poly :: rest) = extrudeLoop env logo_depth rest) ∧
    (env.polyIsEmpty (env.buffer0 poly) = false →
      env.extrude (env.buffer0 poly) logo_depth = none →
      extrudeLoop env logo_depth (poly :: rest) = extrudeLoop env logo_depth rest) ∧
    (∀ m : Mesh, env.polyIsEmpty (env.buffer0 poly) = false →
      env.extrude (env.buffer0 poly) logo_depth = some m →
      extrudeLoop env logo_depth (poly :: rest) =
        m :: extrudeLoop env logo_depth rest) ∧
    (∀ (output_name : String) (diameter thickness scale : ℝ) (flip : Bool)
        (tr br : ℤ) (svg_path svg_string : String) (path_obj : PathObj),
      selectSource env svg_path svg_string = some (some path_obj) →
      (polyList path_obj).isEmpty = false →
      ((generate env output_name diameter thickness logo_depth scale flip tr br
          svg_path svg_string).outcome = Outcome.errExtrusion ↔
        extrudeLoop env logo_depth (polyList path_obj) = [])) := by
  refine ⟨?_, ?_, ?_, ?_⟩
  · intro h
    simp [extrudeLoop, h]
  · intro h1 h2
    simp [extrudeLoop, h1, h2]
  · intro m h1 h2
    simp [extrudeLoop, h1, h2]
  · intro o d t s fl tr br sp ss pobj hsel hne
    simp only [generate, hsel, hne, Bool.false_eq_true, if_false]
    cases hl : extrudeLoop env logo_depth (polyList pobj) with
    | nil => simp
    | cons m ms => simp

theorem C4_per_polygon_tolerance_witness :
    loopEnv.polyIsEmpty (loopEnv.buffer0 []) = false ∧
    loopEnv.extrude (loopEnv.buffer0 []) 1 = some [((0 : ℝ), 0, 0)] ∧
    extrudeLoop loopEnv 1 [[]] = [((0 : ℝ), 0, 0)] :: extrudeLoop loopEnv 1 [] :=
  ⟨rfl, rfl,
   (C4_per_polygon_tolerance loopEnv 1 [] []).2.2.1 [((0 : ℝ), 0, 0)] rfl rfl⟩

/-- C5: whenever generate returns one of its failure results, the file list
of the run is empty: the two export calls sit in the final success branch
only, after every geometry stage has succeeded. -/
theorem C5_no_files_on_failure (env : Env) (output_name : String)
    (diameter thickness logo_depth scale : ℝ) (flip : Bool) (tr br : ℤ)
    (svg_path svg_string : String)
    (h : (generate env output_name diameter thickness logo_depth scale flip tr br
        svg_path svg_string).outcome.isFailure = true) :
    (generate env output_name diameter thickness logo_depth scale flip tr br
        svg_path svg_string).files = [] := by
  cases hsel : selectSource env svg_path svg_string with
  | none => simp [generate, hsel]
  | some po =>
    cases po with
    | none => simp [generate, hsel]
    | some pobj =>
      simp only [generate, hsel] at h ⊢
      by_cases h1 : (polyList pobj).isEmpty = true
      · simp [h1]
      · rw [Bool.not_eq_true] at h1
        by_cases h2 : (extrudeLoop env logo_depth (polyList pobj)).isEmpty = true
        · simp [h1, h2]
        · rw [Bool.not_eq_true] at h2
          simp [h1, h2, Outcome.isFailure] at h

theorem C5_no_files_on_failure_witness :
    (generate emptyEnv "Abhishek_Coaster" 100 5 (3/5) (17/20) true 0 0 "" "").files
      = [] :=
  C5_no_files_on_failure emptyEnv "Abhishek_Coaster" 100 5 (3/5) (17/20) true 0 0
    "" "" (by rfl)

/-- C1: the division by current_size at lines 94 and 95 has no zero guard,
and the source contains no degenerate-size error return (see Outcome).  On
an input whose combined logo mesh has zero XY extent, generate does not fail:
it runs to the export step and writes both files.  In the running code the
unguarded numpy division produces an infinite scale factor that propagates
into the exported geometry; the control flow, which never branches on the
scaled values, is what this theorem evaluates. -/
theorem C1_zero_extent_not_guarded :
    currentSize [((0 : ℝ), 0, 0), (0, 0, 3/5)] = 0 ∧
    (generate degenEnv "Abhishek_Coaster" 100 5 (3/5) (17/20) true 0 0 ""
        "<svg>degenerate</svg>").outcome =
      Outcome.success "out/Abhishek_Coaster_000000_Body.stl"
        "out/Abhishek_Coaster_000000_Logos.stl" ∧
    (generate degenEnv "Abhishek_Coaster" 100 5 (3/5) (17/20) true 0 0 ""
        "<svg>degenerate</svg>").files.length = 2 := by
  refine ⟨?_, ?_, ?_⟩
  · simp [currentSize, xExtent, yExtent, xs, ys, listMin, listMax]
  · rfl
  · rfl

/-! Nonpositive-factor variants and nonempty-list forms of the min/max map
lemmas. -/

lemma minMulNonpos {c : ℝ} (x y : ℝ) (hc : c ≤ 0) :
    min (c * x) (c * y) = c * max x y := by
  rcases le_total x y with h | h
  · rw [max_eq_right h, min_eq_right (mul_le_mul_of_nonpos_left h hc)]
  · rw [max_eq_left h, min_eq_left (mul_le_mul_of_nonpos_left h hc)]

lemma maxMulNonpos {c : ℝ} (x y : ℝ) (hc : c ≤ 0) :
    max (c * x) (c * y) = c * min x y := by
  rcases le_total x y with h | h
  · rw [min_eq_left h, max_eq_left (mul_le_mul_of_nonpos_left h hc)]
  · rw [min_eq_right h, max_eq_right (mul_le_mul_of_nonpos_left h hc)]

lemma foldrMin_map_mul_nonpos {c : ℝ} (hc : c ≤ 0) (l : List ℝ) (a : ℝ) :
    (l.map fun x => c * x).foldr min (c * a) = c * l.foldr max a := by
  induction l with
  | nil => rfl
  | cons x rest ih => simp only [List.map_cons, List.foldr_cons, ih, minMulNonpos _ _ hc]

lemma foldrMax_map_mul_nonpos {c : ℝ} (hc : c ≤ 0) (l : List ℝ) (a : ℝ) :
    (l.map fun x => c * x).foldr max (c * a) = c * l.foldr min a := by
  induction l with
  | nil => rfl
  | cons x rest ih => simp only [List.map_cons, List.foldr_cons, ih, maxMulNonpos _ _ hc]

lemma listMin_map_mul {c : ℝ} (hc : 0 ≤ c) {l : List ℝ} (hl : l ≠ []) :
    listMin (l.map fun x => c * x) = c * listMin l := by
  obtain ⟨a, t, rfl⟩ := List.exists_cons_of_ne_nil hl
  exact listMin_cons_map_mul hc a t

lemma listMax_map_mul {c : ℝ} (hc : 0 ≤ c) {l : List ℝ} (hl : l ≠ []) :
    listMax (l.map fun x => c * x) = c * listMax l := by
  obtain ⟨a, t, rfl⟩ := List.exists_cons_of_ne_nil hl
  exact listMax_cons_map_mul hc a t

lemma listMin_map_mul_nonpos {c : ℝ} (hc : c ≤ 0) {l : List ℝ} (hl : l ≠ []) :
    listMin (l.map fun x => c * x) = c * listMax l := by
  obtain ⟨a, t, rfl⟩ := List.exists_cons_of_ne_nil hl
  simpa [listMin, listMax] using foldrMin_map_mul_nonpos hc t a

lemma listMax_map_mul_nonpos {c : ℝ} (hc : c ≤ 0) {l : List ℝ} (hl : l ≠ []) :
    listMax (l.map fun x => c * x) = c * listMin l := by
  obtain ⟨a, t, rfl⟩ := List.exists_cons_of_ne_nil hl
  simpa [listMin, listMax] using foldrMax_map_mul_nonpos hc t a

lemma listMin_map_sub {b : ℝ} {l : List ℝ} (hl : l ≠ []) :
    listMin (l.map fun x => x - b) = listMin l - b := by
  obtain ⟨a, t, rfl⟩ := List.exists_cons_of_ne_nil hl
  exact listMin_cons_map_sub a b t

lemma listMax_map_sub {b : ℝ} {l : List ℝ} (hl : l ≠ []) :
    listMax (l.map fun x => x - b) = listMax l - b := by
  obtain ⟨a, t, rfl⟩ := List.exists_cons_of_ne_nil hl
  exact listMax_cons_map_sub a b t

/-- The sum of the minimum and the maximum of a scaled list is the scaled
sum, for any sign of the factor. -/
lemma listSum_minMax_map_mul (c : ℝ) {l : List ℝ} (hl : l ≠ []) :
    listMin (l.map fun x => c * x) + listMax (l.map fun x => c * x) =
      c * (listMin l + listMax l) := by
  rcases le_total 0 c with hc | hc
  · rw [listMin_map_mul hc hl, listMax_map_mul hc hl]; ring
  · rw [listMin_map_mul_nonpos hc hl, listMax_map_mul_nonpos hc hl]; ring

/-- C2 as stated is false: with thickness 2 and logo_depth 5, both inside
the declared input ranges (thickness in [2, 20], logo_depth in [0.2, 5]),
the top instance of a logo spanning z in [0, 5] contains a vertex at
z = -4, strictly below -thickness/2 = -1: the instance extends beyond the
band [-thickness/2, thickness/2]. -/
theorem C2_flush_overhang_cex :
    ((0 : ℝ), (0 : ℝ), (-4 : ℝ)) ∈
      topInstance 2 5 0 [((0 : ℝ), 0, 0), (0, 0, 5)] ∧
    (-4 : ℝ) < -(2 / 2) := by
  constructor
  · unfold topInstance
    norm_num [translateZ]
  · norm_num

/-- C2 amended: under the additional bound logo_depth ≤ thickness (forced
by the counterexample), for a logo spanning z in [0, logo_depth] the top
instance spans exactly [thickness/2 - logo_depth, thickness/2], the bottom
instance spans exactly [-thickness/2, -thickness/2 + logo_depth], and both
stay inside [-thickness/2, thickness/2]. -/
theorem C2_flush_placement (thickness logo_depth : ℝ) (tr br : ℤ) (m : Mesh)
    (hdt : logo_depth ≤ thickness)
    (hz : ∀ p ∈ m, 0 ≤ p.2.2 ∧ p.2.2 ≤ logo_depth)
    (h0 : ∃ p ∈ m, p.2.2 = 0) (h1 : ∃ p ∈ m, p.2.2 = logo_depth) :
    (∀ q ∈ topInstance thickness logo_depth tr m,
      thickness / 2 - logo_depth ≤ q.2.2 ∧ q.2.2 ≤ thickness / 2) ∧
    (∃ q ∈ topInstance thickness logo_depth tr m,
      q.2.2 = thickness / 2 - logo_depth) ∧
    (∃ q ∈ topInstance thickness logo_depth tr m, q.2.2 = thickness / 2) ∧
    (∀ q ∈ botInstance thickness logo_depth br m,
      -(thickness / 2) ≤ q.2.2 ∧ q.2.2 ≤ -(thickness / 2) + logo_depth) ∧
    (∃ q ∈ botInstance thickness logo_depth br m,
      q.2.2 = -(thickness / 2) + logo_depth) ∧
    (∃ q ∈ botInstance thickness logo_depth br m, q.2.2 = -(thickness / 2)) ∧
    (∀ q ∈ topInstance thickness logo_depth tr m,
      -(thickness / 2) ≤ q.2.2 ∧ q.2.2 ≤ thickness / 2) ∧
    (∀ q ∈ botInstance thickness logo_depth br m,
      -(thickness / 2) ≤ q.2.2 ∧ q.2.2 ≤ thickness / 2) := by
  rw [topInstance_eq, botInstance_eq]
  refine ⟨?_, ?_, ?_, ?_, ?_, ?_, ?_, ?_⟩
  · intro q hq
    rw [List.mem_map] at hq
    obtain ⟨p, hp, rfl⟩ := hq
    rw [z_top]
    obtain ⟨hz1, hz2⟩ := hz p hp
    constructor <;> linarith
  · obtain ⟨p, hp, hp0⟩ := h0
    exact ⟨_, List.mem_map_of_mem _ hp, by rw [z_top, hp0]; ring⟩
  · obtain ⟨p, hp, hp1⟩ := h1
    exact ⟨_, List.mem_map_of_mem _ hp, by rw [z_top, hp1]; ring⟩
  · intro q hq
    rw [List.mem_map] at hq
    obtain ⟨p, hp, rfl⟩ := hq
    rw [z_bot]
    obtain ⟨hz1, hz2⟩ := hz p hp
    constructor <;> linarith
  · obtain ⟨p, hp, hp0⟩ := h0
    exact ⟨_, List.mem_map_of_mem _ hp, by rw [z_bot, hp0]; ring⟩
  · obtain ⟨p, hp, hp1⟩ := h1
    exact ⟨_, List.mem_map_of_mem _ hp, by rw [z_bot, hp1]; ring⟩
  · intro q hq
    rw [List.mem_map] at hq
    obtain ⟨p, hp, rfl⟩ := hq
    rw [z_top]
    obtain ⟨hz1, hz2⟩ := hz p hp
    constructor <;> linarith
  · intro q hq
    rw [List.mem_map] at hq
    obtain ⟨p, hp, rfl⟩ := hq
    rw [z_bot]
    obtain ⟨hz1, hz2⟩ := hz p hp
    constructor <;> linarith

theorem C2_flush_placement_witness :
    (3 / 5 : ℝ) ≤ 5 ∧
    (∃ q ∈ topInstance 5 (3 / 5) 0 [((0 : ℝ), 0, 0), (1, 2, 3 / 5)],
      q.2.2 = 5 / 2 - 3 / 5) :=
  ⟨by norm_num,
   (C2_flush_placement 5 (3 / 5) 0 0 [((0 : ℝ), 0, 0), (1, 2, 3 / 5)]
     (by norm_num)
     (by intro p hp
         simp only [List.mem_cons, List.not_mem_nil, or_false] at hp
         rcases hp with rfl | rfl <;> norm_num)
     ⟨((0 : ℝ), 0, 0), by simp, rfl⟩
     ⟨((1 : ℝ), 2, 3 / 5), by simp, rfl⟩).2.1⟩

/-- C3: with XY extents (w, h), w ≥ h > 0, and positive diameter and scale
fraction, normalization scales both axes by the single factor
D * s / w: the scaled X extent is exactly D * s, the scaled Y extent is
exactly D * s * (h / w) (the smaller axis is not normalized independently),
and without mirroring the applied vertex map is multiplication of both X
and Y by D * s / w. -/
theorem C3_normalizer_uniform_scale (m : Mesh) (flip : Bool) (D s : ℝ)
    (hwh : yExtent m ≤ xExtent m) (hh : 0 < yExtent m) (hD : 0 < D)
    (hs : 0 < s) :
    xExtent (normalizer flip (D * s) m) = D * s ∧
    yExtent (normalizer flip (D * s) m) = D * s * (yExtent m / xExtent m) ∧
    normalizer false (D * s) m =
      m.map fun p =>
        (D * s / xExtent m * p.1, D * s / xExtent m * p.2.1, p.2.2) := by
  have hw : 0 < xExtent m := lt_of_lt_of_le hh hwh
  have hcs : currentSize m = xExtent m := max_eq_left hwh
  have hm : m ≠ [] := by
    intro h
    subst h
    norm_num [yExtent, ys, listMax, listMin] at hh
  have hxm : xs m ≠ [] := by simpa [xs] using hm
  have hym : ys m ≠ [] := by simpa [ys] using hm
  have hc : 0 < D * s / xExtent m := div_pos (mul_pos hD hs) hw
  have hne : listMax (xs m) - listMin (xs m) ≠ 0 := by
    rw [xExtent] at hw
    linarith
  refine ⟨?_, ?_, ?_⟩
  · rw [xExtent, xs_normalizer, hcs]
    cases flip with
    | false =>
      have he : (fun x => (if (false : Bool) then (-1 : ℝ) else 1) *
            (D * s / xExtent m) * x) = fun x => D * s / xExtent m * x := by
        funext x
        rw [if_neg Bool.false_ne_true]
        ring
      rw [he, listMin_map_mul (le_of_lt hc) hxm, listMax_map_mul (le_of_lt hc) hxm]
      simp only [xExtent]
      field_simp
      ring
    | true =>
      have he : (fun x => (if (true : Bool) then (-1 : ℝ) else 1) *
            (D * s / xExtent m) * x) = fun x => -(D * s / xExtent m) * x := by
        funext x
        rw [if_pos rfl]
        ring
      rw [he, listMin_map_mul_nonpos (by linarith) hxm,
        listMax_map_mul_nonpos (by linarith) hxm]
      simp only [xExtent]
      field_simp
      ring
  · rw [yExtent, ys_normalizer, hcs, listMin_map_mul (le_of_lt hc) hym,
      listMax_map_mul (le_of_lt hc) hym]
    simp only [xExtent, yExtent]
    field_simp
    ring
  · unfold normalizer
    rw [hcs]
    refine List.map_congr_left fun p _ => ?_
    rw [if_neg Bool.false_ne_true, one_mul]

theorem C3_normalizer_uniform_scale_witness :
    yExtent [((0 : ℝ), 0, 0), (2, 1, 0)] ≤ xExtent [((0 : ℝ), 0, 0), (2, 1, 0)] ∧
    xExtent (normalizer false ((100 : ℝ) * (17 / 20)) [((0 : ℝ), 0, 0), (2, 1, 0)]) =
      100 * (17 / 20) := by
  have h1 : yExtent [((0 : ℝ), 0, 0), (2, 1, 0)] ≤
      xExtent [((0 : ℝ), 0, 0), (2, 1, 0)] := by
    norm_num [xExtent, yExtent, xs, ys, listMin, listMax]
  have h2 : (0 : ℝ) < yExtent [((0 : ℝ), 0, 0), (2, 1, 0)] := by
    norm_num [yExtent, ys, listMin, listMax]
  exact ⟨h1, (C3_normalizer_uniform_scale [((0 : ℝ), 0, 0), (2, 1, 0)] false 100
    (17 / 20) h1 h2 (by norm_num) (by norm_num)).1⟩

/-- C6 as stated is false at the declared interface: the two rotation
inputs are declared at lines 29 and 30 with the integer socket type INT
(range -360 to 360, UI step 90), not with the real-valued FLOAT type used
for the other numeric inputs, so a non-integer rotation such as 45.5
degrees cannot be supplied to the node. -/
theorem C6_rotation_cex :
    inputTypeOf "top_rotate" = some "INT" ∧
    inputTypeOf "bottom_rotate" = some "INT" ∧
    ("INT" : String) ≠ "FLOAT" := by
  refine ⟨by decide, by decide, by decide⟩

/-- C6 amended: over the declared integer input domain (and not only at
multiples of 90), the pipeline honors the value exactly: each instance
equals the centered mesh rotated about the Z axis through the origin by
exactly np.radians of the given angle and then translated; the conditional
skip of the rotation matrix at angle 0 coincides with rotating by 0. -/
theorem C6_rotation_honored (thickness logo_depth : ℝ) (r : ℤ) (m : Mesh) :
    topInstance thickness logo_depth r m =
      m.map (fun p => translateZ (thickness / 2 - logo_depth)
        (rotZ (radians r) p)) ∧
    botInstance thickness logo_depth r m =
      m.map (fun p => translateZ (-thickness / 2 + logo_depth)
        (rotX Real.pi (rotZ (radians r) p))) ∧
    inputTypeOf "top_rotate" = some "INT" ∧
    inputTypeOf "bottom_rotate" = some "INT" :=
  ⟨topInstance_eq thickness logo_depth r m, botInstance_eq thickness logo_depth r m,
   by decide, by decide⟩

/-- C8: the centering step is idempotent, it never modifies the Z
coordinates, and it is the identity on a mesh whose XY bounding-box center
is already at the origin. -/
theorem C8_centering_idempotent (m : Mesh) :
    centerer (centerer m) = centerer m ∧
    zs (centerer m) = zs m ∧
    (centerX m = 0 → centerY m = 0 → centerer m = m) := by
  have hnoop : ∀ mm : Mesh, centerX mm = 0 → centerY mm = 0 → centerer mm = mm := by
    intro mm hx hy
    unfold centerer
    rw [hx, hy]
    simp
  refine ⟨?_, zs_centerer m, hnoop m⟩
  rcases eq_or_ne m [] with rfl | hm
  · rfl
  · have hxm : xs m ≠ [] := by simpa [xs] using hm
    have hym : ys m ≠ [] := by simpa [ys] using hm
    apply hnoop
    · rw [centerX, xs_centerer, listMin_map_sub hxm, listMax_map_sub hxm, centerX]
      ring
    · rw [centerY, ys_centerer, listMin_map_sub hym, listMax_map_sub hym, centerY]
      ring

theorem C8_centering_idempotent_witness :
    centerX [((1 : ℝ), 2, 3), (-1, -2, 5)] = 0 ∧
    centerY [((1 : ℝ), 2, 3), (-1, -2, 5)] = 0 ∧
    centerer [((1 : ℝ), 2, 3), (-1, -2, 5)] = [((1 : ℝ), 2, 3), (-1, -2, 5)] := by
  have hx : centerX [((1 : ℝ), 2, 3), (-1, -2, 5)] = 0 := by
    norm_num [centerX, xs, listMin, listMax]
  have hy : centerY [((1 : ℝ), 2, 3), (-1, -2, 5)] = 0 := by
    norm_num [centerY, ys, listMin, listMax]
  exact ⟨hx, hy, (C8_centering_idempotent [((1 : ℝ), 2, 3), (-1, -2, 5)]).2.2 hx hy⟩

/-- Every ring vertex lies at distance r from the Z axis. -/
lemma ringV_radius (r h : ℝ) (n : ℕ) (b : Bool) (k : ℕ) :
    (ringV r h n b k).1 ^ 2 + (ringV r h n b k).2.1 ^ 2 = r ^ 2 := by
  simp only [ringV]
  linear_combination (r ^ 2) * Real.sin_sq_add_cos_sq (2 * Real.pi * k / n)

/-- C9: the base solid is built as a cylinder of radius diameter/2 and
height thickness with 120 circular segments: its 240 ring vertices all lie
at distance diameter/2 from the Z axis, every vertex lies in one of the two
cap planes z = -thickness/2 and z = thickness/2, both planes are attained,
and every cap-fan face lies entirely in its cap plane.  The cylinder
builder itself is the external trimesh.creation.cylinder, modelled from the
spec (section 4.7); the arguments radius=diameter/2, height=thickness,
sections=120 are those of line 49 of the source. -/
theorem C9_base_cylinder (diameter thickness : ℝ) :
    baseMesh diameter thickness = cylinderVerts (diameter / 2) thickness 120 ∧
    (baseMesh diameter thickness).length = 240 ∧
    (∀ v ∈ baseMesh diameter thickness,
      v.1 ^ 2 + v.2.1 ^ 2 = (diameter / 2) ^ 2 ∧
      (v.2.2 = -(thickness / 2) ∨ v.2.2 = thickness / 2)) ∧
    (∃ v ∈ baseMesh diameter thickness, v.2.2 = -(thickness / 2)) ∧
    (∃ v ∈ baseMesh diameter thickness, v.2.2 = thickness / 2) ∧
    (∀ f ∈ capFaces (diameter / 2) thickness 120 true,
      f.1.2.2 = thickness / 2 ∧ f.2.1.2.2 = thickness / 2 ∧
      f.2.2.2.2 = thickness / 2) ∧
    (∀ f ∈ capFaces (diameter / 2) thickness 120 false,
      f.1.2.2 = -(thickness / 2) ∧ f.2.1.2.2 = -(thickness / 2) ∧
      f.2.2.2.2 = -(thickness / 2)) := by
  refine ⟨rfl, ?_, ?_, ?_, ?_, ?_, ?_⟩
  · simp [baseMesh, cylinderVerts]
  · intro v hv
    simp only [baseMesh, cylinderVerts, List.mem_append, List.mem_map,
      List.mem_range] at hv
    rcases hv with ⟨k, -, rfl⟩ | ⟨k, -, rfl⟩
    · exact ⟨ringV_radius (diameter / 2) thickness 120 false k, Or.inl rfl⟩
    · exact ⟨ringV_radius (diameter / 2) thickness 120 true k, Or.inr rfl⟩
  · exact ⟨ringV (diameter / 2) thickness 120 false 0,
      List.mem_append_left _ (List.mem_map_of_mem _ (List.mem_range.mpr (by norm_num))),
      rfl⟩
  · exact ⟨ringV (diameter / 2) thickness 120 true 0,
      List.mem_append_right _ (List.mem_map_of_mem _ (List.mem_range.mpr (by norm_num))),
      rfl⟩
  · intro f hf
    simp only [capFaces, List.mem_map, List.mem_range] at hf
    obtain ⟨i, -, rfl⟩ := hf
    exact ⟨rfl, rfl, rfl⟩
  · intro f hf
    simp only [capFaces, List.mem_map, List.mem_range] at hf
    obtain ⟨i, -, rfl⟩ := hf
    exact ⟨rfl, rfl, rfl⟩

/-- C7: for identical other parameters, the centered logo mesh produced
with mirroring is the X-axis mirror image of the centered logo mesh
produced without mirroring.  The positivity hypothesis on current_size
keeps the statement where the real-number model of the numpy division is
faithful (a zero current_size produces non-finite floats in the running
code, the subject of C1). -/
theorem C7_mirror_symmetry (m : Mesh) (target_size : ℝ) (hm : m ≠ [])
    (_hcs : 0 < currentSize m) :
    centerer (normalizer true target_size m) =
      (centerer (normalizer false target_size m)).map
        fun p => (-p.1, p.2.1, p.2.2) := by
  have hxm : xs m ≠ [] := by simpa [xs] using hm
  have hfT : xs (normalizer true target_size m) =
      (xs m).map fun x => -(target_size / currentSize m) * x := by
    rw [xs_normalizer]
    refine List.map_congr_left fun x _ => ?_
    rw [if_pos rfl]
    ring
  have hfF : xs (normalizer false target_size m) =
      (xs m).map fun x => target_size / currentSize m * x := by
    rw [xs_normalizer]
    refine List.map_congr_left fun x _ => ?_
    rw [if_neg Bool.false_ne_true]
    ring
  have hcx : centerX (normalizer true target_size m) =
      -centerX (normalizer false target_size m) := by
    rw [centerX, centerX, hfT, hfF]
    have h1 := listSum_minMax_map_mul (-(target_size / currentSize m)) hxm
    have h2 := listSum_minMax_map_mul (target_size / currentSize m) hxm
    linarith [h1, h2]
  have hcy : centerY (normalizer true target_size m) =
      centerY (normalizer false target_size m) := by
    rw [centerY, centerY, ys_normalizer, ys_normalizer]
  unfold centerer
  rw [hcx, hcy]
  unfold normalizer
  simp only [List.map_map]
  refine List.map_congr_left fun p _ => ?_
  simp only [Function.comp]
  rw [if_pos (trivial : True), if_neg Bool.false_ne_true]
  simp only [Prod.mk.injEq, and_true]
  ring

theorem C7_mirror_symmetry_witness :
    ([((0 : ℝ), 0, 0), (1, 2, 3)] : Mesh) ≠ [] ∧
    0 < currentSize [((0 : ℝ), 0, 0), (1, 2, 3)] ∧
    centerer (normalizer true 85 [((0 : ℝ), 0, 0), (1, 2, 3)]) =
      (centerer (normalizer false 85 [((0 : ℝ), 0, 0), (1, 2, 3)])).map
        fun p => (-p.1, p.2.1, p.2.2) := by
  have h1 : ([((0 : ℝ), 0, 0), (1, 2, 3)] : Mesh) ≠ [] := by simp
  have h2 : (0 : ℝ) < currentSize [((0 : ℝ), 0, 0), (1, 2, 3)] := by
    norm_num [currentSize, xExtent, yExtent, xs, ys, listMin, listMax]
  exact ⟨h1, h2, C7_mirror_symmetry [((0 : ℝ), 0, 0), (1, 2, 3)] 85 h1 h2⟩
